import Mathlib

/-!
Verification of the `rewrite` tool (src/main.rs): an atomic file-rewrite
engine. The program opens a target file, snapshots its permissions, creates
a uniquely-named scratch file, runs an external command with its stdout
wired to the scratch file, and — only when the command exits 0 and no-op
mode is off — atomically renames the scratch file onto the target and
restores the captured permissions.

The embedding models every fallible external operation (open, metadata
query, temp-file creation, handle duplication, environment lookup, spawn,
persist, set-permissions) through an oracle `World` that fixes the outcome
of each operation, and mirrors the control flow of `run` and `main`
faithfully. The model records, alongside the `Result` value, the final
filesystem state, an ordered trace of the externally visible events, and
the execution plan handed to the child process (program, arguments, added
environment bindings, stdio wiring), so that ordering, cleanup and
environment-injection properties can be stated.
-/

namespace Rewrite

/-- A filesystem path, modelled as its components. `parent` and `fileName`
mirror `Path::parent` / `Path::file_name`. -/
structure FsPath where
  components : List String
deriving DecidableEq, Repr

def FsPath.parent (p : FsPath) : Option FsPath :=
  match p.components with
  | [] => none
  | cs => some ⟨cs.dropLast⟩

def FsPath.fileName (p : FsPath) : Option String :=
  p.components.getLast?

def FsPath.child (p : FsPath) (name : String) : FsPath :=
  ⟨p.components ++ [name]⟩

def FsPath.render (p : FsPath) : String :=
  String.intercalate "/" p.components

/-- The parsed command-line options (struct `Opt` in src/main.rs). -/
structure Opt where
  no_op : Bool
  no_env : Bool
  sibling_dir : Bool
  temp_dir : Bool
  dir : Option FsPath
  shell_mode : Bool
  drop_root : Bool
  stdin : Bool
  rewrite_path : FsPath
  command : List String
deriving DecidableEq, Repr

/-- Outcome of a successfully spawned child process: `ExitStatus.code()`
returns `some code` for a normal exit and `none` for a signal (Unix), in
which case `exit_signal` reports the optional signal number. -/
inductive ChildStatus where
  | exited (code : Int)
  | signaled (sig : Option Int)
deriving DecidableEq, Repr

/-- The error enum `RewriteError` of src/main.rs. Underlying io errors are
modelled as numeric codes. -/
inductive RewriteError where
  | Open (err : Nat)
  | CreateTemp (dir : FsPath) (err : Nat)
  | DupTemp (err : Nat)
  | SpawnChild (err : Nat)
  | Signal (sig : Option Int)
  | Persist (err : Nat)
  | NoSudoUser (err : Nat)
  | GetPermissions (err : Nat)
  | SetPermissions (err : Nat)
deriving DecidableEq, Repr

/-- Result of `run`: `Ok(code)`, `Err(e)`, or a Rust panic (an `expect`
failure; the process unwinds, running destructors). -/
inductive RunResult where
  | ok (code : Int)
  | err (e : RewriteError)
  | panicked (msg : String)
deriving DecidableEq, Repr

/-- Oracle for every external operation `run` performs, together with the
initial state of the target file. A value of `World` fixes one concrete
execution environment. -/
structure World where
  targetExists : Bool
  targetReadable : Bool
  targetWritable : Bool
  openErrCode : Nat
  metadataOk : Bool
  metadataErrCode : Nat
  initContent : List Nat
  initPerms : Nat
  sysTempDir : FsPath
  createTempOk : Bool
  createTempErrCode : Nat
  scratchRand : String
  tempFilePerms : Nat
  dupOk : Bool
  dupErrCode : Nat
  sudoUser : Option String
  sudoErrCode : Nat
  spawnOk : Bool
  spawnErrCode : Nat
  childStatus : ChildStatus
  childOutput : List Nat
  persistOk : Bool
  persistErrCode : Nat
  setPermsOk : Bool
  setPermsErrCode : Nat
deriving DecidableEq, Repr

/-- Filesystem state the run can observe and mutate: the target file's
content and permission bits, and the path of a scratch file currently on
disk (if any). -/
structure FsState where
  targetContent : List Nat
  targetPerms : Nat
  scratch : Option FsPath
deriving DecidableEq, Repr

def initFs (w : World) : FsState :=
  { targetContent := w.initContent, targetPerms := w.initPerms, scratch := none }

/-- Externally visible events of one run, in order of occurrence. -/
inductive Event where
  | openedTarget
  | capturedPerms
  | createdScratch
  | dupedHandle
  | spawnedChild
  | waitedChild
  | persistedScratch
  | setPermsApplied
  | deletedScratch
deriving DecidableEq, Repr

/-- Flags passed to `OpenOptions` when opening the target (src/main.rs
lines 139-144): read and write access are both required, `create` is off. -/
structure OpenOptionsSpec where
  readAccess : Bool
  writeAccess : Bool
  createFlag : Bool
deriving DecidableEq, Repr

def targetOpenOptions : OpenOptionsSpec :=
  { readAccess := true, writeAccess := true, createFlag := false }

/-- Whether `OpenOptions::open` on the target succeeds: the file must exist
(`create(false)`), and each requested access mode must be permitted. -/
def openTargetOk (w : World) : Bool :=
  w.targetExists
    && (!targetOpenOptions.readAccess || w.targetReadable)
    && (!targetOpenOptions.writeAccess || w.targetWritable)

/-- Directory for the scratch file (src/main.rs lines 152-159): the
system temp dir when `--temp-dir` is set, else the explicit `--dir`
directory, else the target's own parent directory. -/
def resolveDir (w : World) (opt : Opt) : Option FsPath :=
  if opt.temp_dir then some w.sysTempDir
  else
    match opt.dir with
    | some d => some d
    | none => opt.rewrite_path.parent

/-- The `sudo --user <SUDO_USER> --` prelude when `--drop-root` is given;
`none` when `SUDO_USER` is unset (the `NoSudoUser` error). -/
def sudoArgs (w : World) (opt : Opt) : Option (List String) :=
  if opt.drop_root then
    w.sudoUser.map (fun username => ["sudo", "--user", username, "--"])
  else some []

/-- The user command, possibly wrapped for shell mode (`sh -c` with the
tokens joined by single spaces). -/
def shellPart (opt : Opt) : List String :=
  if opt.shell_mode then ["sh", "-c", String.intercalate " " opt.command]
  else opt.command

/-- The fully constructed command vector (src/main.rs lines 184-203), or
`none` when `--drop-root` is set but `SUDO_USER` is missing. -/
def commandLine (w : World) (opt : Opt) : Option (List String) :=
  (sudoArgs w opt).map (fun sa => sa ++ shellPart opt)

/-- Environment bindings added to the child (src/main.rs lines 215-219):
none when `--no-env` is set, otherwise exactly REWRITE_TEMPFILE,
REWRITE_OUTPUT and REWRITE_INPUT (the latter the sentinel "-" in stdin
mode). -/
def envBindings (opt : Opt) (scratchPath targetPath : FsPath) : List (String × String) :=
  if opt.no_env then []
  else
    [("REWRITE_TEMPFILE", scratchPath.render),
     ("REWRITE_OUTPUT", targetPath.render),
     ("REWRITE_INPUT", if opt.stdin then "-" else targetPath.render)]

/-- The resolved subprocess invocation: program, arguments, added
environment, and stdio wiring (stdin from the target handle unless in
stdin mode; stdout always to the duplicated scratch handle). -/
structure ExecutionPlan where
  program : String
  args : List String
  envAdded : List (String × String)
  stdinFromTarget : Bool
  stdoutToScratch : Bool
deriving DecidableEq, Repr

/-- Everything one run produces: the `Result` value of `run`, the final
filesystem state (after all destructors have run), the ordered event
trace, and the execution plan if one was built. -/
structure RunOutput where
  result : RunResult
  fs : FsState
  events : List Event
  plan : Option ExecutionPlan
deriving DecidableEq, Repr

/-- The `run` function of src/main.rs. Each return site accounts for the
destructors that run when `run` returns there: a still-named
`NamedTempFile` (including one carried inside a `PersistError`) deletes
the scratch file, while a successful `persist` consumes it. -/
def run (w : World) (opt : Opt) : RunOutput :=
  let path := opt.rewrite_path
  let fs0 := initFs w
  if openTargetOk w then
    if w.metadataOk then
      match resolveDir w opt with
      | none =>
        { result := .panicked "Target file doesn't have a parent directory?",
          fs := fs0, events := [.openedTarget, .capturedPerms], plan := none }
      | some dirPath =>
        match path.fileName with
        | none =>
          { result := .panicked "Target file doesn't have a name?",
            fs := fs0, events := [.openedTarget, .capturedPerms], plan := none }
        | some filename =>
          if w.createTempOk then
            let scratchPath := dirPath.child (".rewrite-tmp-" ++ w.scratchRand ++ "-" ++ filename)
            if w.dupOk then
              match commandLine w opt with
              | none =>
                { result := .err (.NoSudoUser w.sudoErrCode), fs := fs0,
                  events := [.openedTarget, .capturedPerms, .createdScratch,
                             .dupedHandle, .deletedScratch],
                  plan := none }
              | some [] =>
                { result := .panicked "No command was given", fs := fs0,
                  events := [.openedTarget, .capturedPerms, .createdScratch,
                             .dupedHandle, .deletedScratch],
                  plan := none }
              | some (program :: args) =>
                let plan : ExecutionPlan :=
                  { program := program, args := args,
                    envAdded := envBindings opt scratchPath path,
                    stdinFromTarget := !opt.stdin, stdoutToScratch := true }
                if w.spawnOk then
                  match w.childStatus with
                  | .signaled sig =>
                    { result := .err (.Signal sig), fs := fs0,
                      events := [.openedTarget, .capturedPerms, .createdScratch,
                                 .dupedHandle, .spawnedChild, .waitedChild,
                                 .deletedScratch],
                      plan := some plan }
                  | .exited code =>
                    if code = 0 then
                      if opt.no_op then
                        { result := .ok 0, fs := fs0,
                          events := [.openedTarget, .capturedPerms, .createdScratch,
                                     .dupedHandle, .spawnedChild, .waitedChild,
                                     .deletedScratch],
                          plan := some plan }
                      else if w.persistOk then
                        if w.setPermsOk then
                          { result := .ok 0,
                            fs := { targetContent := w.childOutput,
                                    targetPerms := w.initPerms, scratch := none },
                            events := [.openedTarget, .capturedPerms, .createdScratch,
                                       .dupedHandle, .spawnedChild, .waitedChild,
                                       .persistedScratch, .setPermsApplied],
                            plan := some plan }
                        else
                          { result := .err (.SetPermissions w.setPermsErrCode),
                            fs := { targetContent := w.childOutput,
                                    targetPerms := w.tempFilePerms, scratch := none },
                            events := [.openedTarget, .capturedPerms, .createdScratch,
                                       .dupedHandle, .spawnedChild, .waitedChild,
                                       .persistedScratch],
                            plan := some plan }
                      else
                        { result := .err (.Persist w.persistErrCode), fs := fs0,
                          events := [.openedTarget, .capturedPerms, .createdScratch,
                                     .dupedHandle, .spawnedChild, .waitedChild,
                                     .deletedScratch],
                          plan := some plan }
                    else
                      { result := .ok code, fs := fs0,
                        events := [.openedTarget, .capturedPerms, .createdScratch,
                                   .dupedHandle, .spawnedChild, .waitedChild,
                                   .deletedScratch],
                        plan := some plan }
                else
                  { result := .err (.SpawnChild w.spawnErrCode), fs := fs0,
                    events := [.openedTarget, .capturedPerms, .createdScratch,
                               .dupedHandle, .deletedScratch],
                    plan := some plan }
            else
              { result := .err (.DupTemp w.dupErrCode), fs := fs0,
                events := [.openedTarget, .capturedPerms, .createdScratch,
                           .deletedScratch],
                plan := none }
          else
            { result := .err (.CreateTemp dirPath w.createTempErrCode), fs := fs0,
              events := [.openedTarget, .capturedPerms], plan := none }
    else
      { result := .err (.GetPermissions w.metadataErrCode), fs := fs0,
        events := [.openedTarget], plan := none }
  else
    { result := .err (.Open w.openErrCode), fs := fs0, events := [], plan := none }

/-- The one-line diagnostic `main` prints to standard error for each error
variant (src/main.rs lines 269-285). -/
def errorLine (path : FsPath) (e : RewriteError) : String :=
  match e with
  | .Open err => "Error opening '" ++ path.render ++ "' for read: " ++ toString err
  | .CreateTemp dir err =>
      "Error creating temporary file in '" ++ dir.render ++ "': " ++ toString err
  | .DupTemp err => "Error creating duplicate file descriptor: " ++ toString err
  | .SpawnChild err => "Error spawning command: " ++ toString err
  | .Signal none => "Command terminated from unknown signal"
  | .Signal (some sig) => "Command terminated from signal " ++ toString sig
  | .Persist err => "Error persisting temporary file: " ++ toString err
  | .NoSudoUser err =>
      "--drop-priveleges was given, but there was an error reading SUDO_USER: "
        ++ toString err
  | .GetPermissions err =>
      "Error getting file permissions for " ++ path.render ++ ": " ++ toString err
  | .SetPermissions err =>
      "command completed successfully, but error restoring file permissions to the new file: "
        ++ toString err

/-- What the whole process does: exit code, the diagnostic line on
standard error (if any), and everything `run` produced. -/
structure MainOutput where
  exitCode : Int
  stderrLine : Option String
  fs : FsState
  events : List Event
  plan : Option ExecutionPlan
deriving DecidableEq, Repr

/-- The `main` function of src/main.rs: `Ok(0)` exits 0 silently,
`Ok(code)` prints the skipping-write notice and exits with the child's own
code, `Err(e)` prints the error line and exits 1. A panic aborts with the
Rust panic exit code 101. -/
def mainRun (w : World) (opt : Opt) : MainOutput :=
  let out := run w opt
  match out.result with
  | .ok code =>
    if code = 0 then
      { exitCode := 0, stderrLine := none,
        fs := out.fs, events := out.events, plan := out.plan }
    else
      { exitCode := code,
        stderrLine := some ("Command exited with status code " ++ toString code
          ++ "; skipping write"),
        fs := out.fs, events := out.events, plan := out.plan }
  | .err e =>
    { exitCode := 1, stderrLine := some (errorLine opt.rewrite_path e),
      fs := out.fs, events := out.events, plan := out.plan }
  | .panicked msg =>
    { exitCode := 101, stderrLine := some msg,
      fs := out.fs, events := out.events, plan := out.plan }

/-- A fully successful environment: every external operation succeeds and
the child exits 0, producing `childOutput`. -/
def wOk : World :=
  { targetExists := true, targetReadable := true, targetWritable := true,
    openErrCode := 2, metadataOk := true, metadataErrCode := 3,
    initContent := [104, 105, 10], initPerms := 420,
    sysTempDir := ⟨["tmp"]⟩, createTempOk := true, createTempErrCode := 4,
    scratchRand := "x7Yz", tempFilePerms := 384, dupOk := true, dupErrCode := 5,
    sudoUser := some "alice", sudoErrCode := 6, spawnOk := true, spawnErrCode := 7,
    childStatus := .exited 0, childOutput := [98, 121, 101, 10],
    persistOk := true, persistErrCode := 8, setPermsOk := true, setPermsErrCode := 9 }

/-- A plain invocation: `rewrite home/notes.txt -- sort`. -/
def optOk : Opt :=
  { no_op := false, no_env := false, sibling_dir := false, temp_dir := false,
    dir := none, shell_mode := false, drop_root := false, stdin := false,
    rewrite_path := ⟨["home", "notes.txt"]⟩, command := ["sort"] }

/-- C1: in every run where the spawned command exits 0 and no-op mode is
off (and the persist and permission-restore operations succeed), the
scratch file is renamed onto the target — the target's content afterwards
is exactly the command's captured stdout — the permission snapshot taken
at open time is reapplied to the replacement file, and the process exits
with code 0 printing nothing to standard error. -/
theorem rewrite_C1 (w : World) (opt : Opt) (dp : FsPath) (fn program : String)
    (args : List String)
    (hopen : openTargetOk w = true) (hmeta : w.metadataOk = true)
    (hdir : resolveDir w opt = some dp) (hname : opt.rewrite_path.fileName = some fn)
    (hct : w.createTempOk = true) (hdup : w.dupOk = true)
    (hcmd : commandLine w opt = some (program :: args))
    (hspawn : w.spawnOk = true) (hchild : w.childStatus = .exited 0)
    (hnoop : opt.no_op = false) (hpersist : w.persistOk = true)
    (hperm : w.setPermsOk = true) :
    (mainRun w opt).exitCode = 0 ∧
    (mainRun w opt).stderrLine = none ∧
    (mainRun w opt).fs.targetContent = w.childOutput ∧
    (mainRun w opt).fs.targetPerms = w.initPerms ∧
    Event.persistedScratch ∈ (mainRun w opt).events ∧
    Event.setPermsApplied ∈ (mainRun w opt).events := by
  simp [mainRun, run, hopen, hmeta, hdir, hname, hct, hdup, hcmd, hspawn, hchild,
    hnoop, hpersist, hperm]

theorem rewrite_C1_witness :
    (mainRun wOk optOk).exitCode = 0 ∧
    (mainRun wOk optOk).stderrLine = none ∧
    (mainRun wOk optOk).fs.targetContent = wOk.childOutput ∧
    (mainRun wOk optOk).fs.targetPerms = wOk.initPerms ∧
    Event.persistedScratch ∈ (mainRun wOk optOk).events ∧
    Event.setPermsApplied ∈ (mainRun wOk optOk).events :=
  rewrite_C1 wOk optOk ⟨["home"]⟩ "notes.txt" "sort" [] rfl rfl rfl rfl rfl rfl
    rfl rfl rfl rfl rfl rfl

/-- C2: in every run where the spawned command exits with a nonzero code
`n`, the target's content and permissions are unchanged, no scratch file
remains, `run` returns `Ok n` (a normal result, not an error), and the
process prints the skipping-write notice and exits with status `n`
itself. -/
theorem rewrite_C2 (w : World) (opt : Opt) (dp : FsPath) (fn program : String)
    (args : List String) (n : Int)
    (hopen : openTargetOk w = true) (hmeta : w.metadataOk = true)
    (hdir : resolveDir w opt = some dp) (hname : opt.rewrite_path.fileName = some fn)
    (hct : w.createTempOk = true) (hdup : w.dupOk = true)
    (hcmd : commandLine w opt = some (program :: args))
    (hspawn : w.spawnOk = true) (hchild : w.childStatus = .exited n)
    (hn : n ≠ 0) :
    (run w opt).result = .ok n ∧
    (mainRun w opt).exitCode = n ∧
    (mainRun w opt).stderrLine
      = some ("Command exited with status code " ++ toString n ++ "; skipping write") ∧
    (mainRun w opt).fs = initFs w ∧
    Event.deletedScratch ∈ (mainRun w opt).events ∧
    Event.persistedScratch ∉ (mainRun w opt).events := by
  simp [mainRun, run, hopen, hmeta, hdir, hname, hct, hdup, hcmd, hspawn, hchild, hn]

theorem rewrite_C2_witness :
    (run { wOk with childStatus := .exited 3 } optOk).result = .ok 3 ∧
    (mainRun { wOk with childStatus := .exited 3 } optOk).exitCode = 3 ∧
    (mainRun { wOk with childStatus := .exited 3 } optOk).stderrLine
      = some ("Command exited with status code " ++ toString (3 : Int)
          ++ "; skipping write") ∧
    (mainRun { wOk with childStatus := .exited 3 } optOk).fs
      = initFs { wOk with childStatus := .exited 3 } ∧
    Event.deletedScratch ∈ (mainRun { wOk with childStatus := .exited 3 } optOk).events ∧
    Event.persistedScratch ∉ (mainRun { wOk with childStatus := .exited 3 } optOk).events :=
  rewrite_C2 { wOk with childStatus := .exited 3 } optOk ⟨["home"]⟩ "notes.txt"
    "sort" [] 3 rfl rfl rfl rfl rfl rfl rfl rfl rfl (by decide)

/-- C10: the target is opened requiring both read and write access with
`create` off, so a target that exists but is not writable fails the run
with the `Open` error and exit code 1, before any event occurs, any
scratch file is created or any execution plan is built, leaving the
filesystem untouched — whatever the remaining options (in particular in
stdin mode). -/
theorem rewrite_C10 (w : World) (opt : Opt)
    (hex : w.targetExists = true) (hw : w.targetWritable = false) :
    targetOpenOptions.readAccess = true ∧
    targetOpenOptions.writeAccess = true ∧
    targetOpenOptions.createFlag = false ∧
    (run w opt).result = .err (.Open w.openErrCode) ∧
    (run w opt).events = [] ∧
    (run w opt).plan = none ∧
    (run w opt).fs = initFs w ∧
    (mainRun w opt).exitCode = 1 := by
  simp [mainRun, run, openTargetOk, targetOpenOptions, hex, hw, errorLine]

theorem rewrite_C10_witness :
    targetOpenOptions.readAccess = true ∧
    targetOpenOptions.writeAccess = true ∧
    targetOpenOptions.createFlag = false ∧
    (run { wOk with targetWritable := false } { optOk with stdin := true }).result
      = .err (.Open { wOk with targetWritable := false }.openErrCode) ∧
    (run { wOk with targetWritable := false } { optOk with stdin := true }).events = [] ∧
    (run { wOk with targetWritable := false } { optOk with stdin := true }).plan = none ∧
    (run { wOk with targetWritable := false } { optOk with stdin := true }).fs
      = initFs { wOk with targetWritable := false } ∧
    (mainRun { wOk with targetWritable := false } { optOk with stdin := true }).exitCode
      = 1 :=
  rewrite_C10 { wOk with targetWritable := false } { optOk with stdin := true } rfl rfl

/-- An invocation setting both `--temp-dir` and an explicit `--dir`. -/
def optC3 : Opt :=
  { no_op := false, no_env := false, sibling_dir := false, temp_dir := true,
    dir := some ⟨["explicit"]⟩, shell_mode := false, drop_root := false,
    stdin := false, rewrite_path := ⟨["home", "f.txt"]⟩, command := ["cat"] }

/-- A world where scratch-file creation fails, so the `CreateTemp` error
reports which directory was chosen. -/
def wC3 : World :=
  { wOk with createTempOk := false, createTempErrCode := 13 }

/-- C3, counterexample: with both the explicit-directory option and the
system-temp flag set, the scratch file is created in the system temp
directory, not the explicit directory — the attempted `CreateTemp`
directory is `tmp`, which differs from `explicit`. The claimed precedence
(explicit over system-temp) does not hold. -/
theorem rewrite_C3_counterexample :
    optC3.temp_dir = true ∧
    optC3.dir = some ⟨["explicit"]⟩ ∧
    (run wC3 optC3).result = .err (.CreateTemp ⟨["tmp"]⟩ 13) ∧
    (FsPath.mk ["tmp"]) ≠ (FsPath.mk ["explicit"]) := by
  refine ⟨rfl, rfl, by decide, by decide⟩

/-- C3, amended: the scratch directory follows the precedence system-temp
flag over explicit directory over the target's sibling directory; in
particular when both the system-temp flag and the explicit-directory
option are set, the system temp directory is used. Stated through the
directory the `CreateTemp` stage reports when creation fails. -/
theorem rewrite_C3_amended (w : World) (opt : Opt) (fn : String)
    (hopen : openTargetOk w = true) (hmeta : w.metadataOk = true)
    (hname : opt.rewrite_path.fileName = some fn)
    (hct : w.createTempOk = false) :
    (opt.temp_dir = true →
      (run w opt).result = .err (.CreateTemp w.sysTempDir w.createTempErrCode)) ∧
    (opt.temp_dir = false → ∀ d, opt.dir = some d →
      (run w opt).result = .err (.CreateTemp d w.createTempErrCode)) ∧
    (opt.temp_dir = false → opt.dir = none →
      ∀ p, opt.rewrite_path.parent = some p →
        (run w opt).result = .err (.CreateTemp p w.createTempErrCode)) := by
  refine ⟨?_, ?_, ?_⟩
  · intro ht
    simp [run, resolveDir, hopen, hmeta, hname, hct, ht]
  · intro ht d hd
    simp [run, resolveDir, hopen, hmeta, hname, hct, ht, hd]
  · intro ht hd p hp
    simp [run, resolveDir, hopen, hmeta, hname, hct, ht, hd, hp]

theorem rewrite_C3_witness :
    (run wC3 optC3).result = .err (.CreateTemp wC3.sysTempDir wC3.createTempErrCode) :=
  (rewrite_C3_amended wC3 optC3 "f.txt" rfl rfl rfl rfl).1 rfl

/-- C4: in every run where the spawned command is terminated by a signal,
`run` fails with the `Signal` error, a message naming the signal (or its
absence) is printed to standard error, the process exits with code 1, the
target is not modified and the scratch file is deleted. -/
theorem rewrite_C4 (w : World) (opt : Opt) (dp : FsPath) (fn program : String)
    (args : List String) (sig : Option Int)
    (hopen : openTargetOk w = true) (hmeta : w.metadataOk = true)
    (hdir : resolveDir w opt = some dp) (hname : opt.rewrite_path.fileName = some fn)
    (hct : w.createTempOk = true) (hdup : w.dupOk = true)
    (hcmd : commandLine w opt = some (program :: args))
    (hspawn : w.spawnOk = true) (hchild : w.childStatus = .signaled sig) :
    (run w opt).result = .err (.Signal sig) ∧
    (mainRun w opt).exitCode = 1 ∧
    (mainRun w opt).stderrLine
      = some (match sig with
          | none => "Command terminated from unknown signal"
          | some s => "Command terminated from signal " ++ toString s) ∧
    (mainRun w opt).fs = initFs w ∧
    Event.deletedScratch ∈ (mainRun w opt).events := by
  cases sig <;>
    simp [mainRun, run, errorLine, hopen, hmeta, hdir, hname, hct, hdup, hcmd,
      hspawn, hchild]

theorem rewrite_C4_witness :
    (run { wOk with childStatus := .signaled (some 9) } optOk).result
      = .err (.Signal (some 9)) ∧
    (mainRun { wOk with childStatus := .signaled (some 9) } optOk).exitCode = 1 ∧
    (mainRun { wOk with childStatus := .signaled (some 9) } optOk).stderrLine
      = some ("Command terminated from signal " ++ toString (9 : Int)) ∧
    (mainRun { wOk with childStatus := .signaled (some 9) } optOk).fs
      = initFs { wOk with childStatus := .signaled (some 9) } ∧
    Event.deletedScratch
      ∈ (mainRun { wOk with childStatus := .signaled (some 9) } optOk).events :=
  rewrite_C4 { wOk with childStatus := .signaled (some 9) } optOk ⟨["home"]⟩
    "notes.txt" "sort" [] (some 9) rfl rfl rfl rfl rfl rfl rfl rfl rfl

/-- C6: in every run where the rename onto the target succeeds but
restoring the captured permissions fails, the content replacement is not
rolled back — the target holds the command's output — and the failure is
surfaced as the distinct `SetPermissions` error (not the `Persist` commit
error), with exit code 1 and its own diagnostic line. -/
theorem rewrite_C6 (w : World) (opt : Opt) (dp : FsPath) (fn program : String)
    (args : List String)
    (hopen : openTargetOk w = true) (hmeta : w.metadataOk = true)
    (hdir : resolveDir w opt = some dp) (hname : opt.rewrite_path.fileName = some fn)
    (hct : w.createTempOk = true) (hdup : w.dupOk = true)
    (hcmd : commandLine w opt = some (program :: args))
    (hspawn : w.spawnOk = true) (hchild : w.childStatus = .exited 0)
    (hnoop : opt.no_op = false) (hpersist : w.persistOk = true)
    (hperm : w.setPermsOk = false) :
    (run w opt).result = .err (.SetPermissions w.setPermsErrCode) ∧
    (run w opt).result ≠ .err (.Persist w.persistErrCode) ∧
    (run w opt).fs.targetContent = w.childOutput ∧
    Event.persistedScratch ∈ (run w opt).events ∧
    (mainRun w opt).exitCode = 1 ∧
    (mainRun w opt).stderrLine
      = some ("command completed successfully, but error restoring file permissions to the new file: "
          ++ toString w.setPermsErrCode) := by
  simp [mainRun, run, errorLine, hopen, hmeta, hdir, hname, hct, hdup, hcmd,
    hspawn, hchild, hnoop, hpersist, hperm]

theorem rewrite_C6_witness :
    (run { wOk with setPermsOk := false } optOk).result
      = .err (.SetPermissions { wOk with setPermsOk := false }.setPermsErrCode) ∧
    (run { wOk with setPermsOk := false } optOk).result
      ≠ .err (.Persist { wOk with setPermsOk := false }.persistErrCode) ∧
    (run { wOk with setPermsOk := false } optOk).fs.targetContent
      = { wOk with setPermsOk := false }.childOutput ∧
    Event.persistedScratch ∈ (run { wOk with setPermsOk := false } optOk).events ∧
    (mainRun { wOk with setPermsOk := false } optOk).exitCode = 1 ∧
    (mainRun { wOk with setPermsOk := false } optOk).stderrLine
      = some ("command completed successfully, but error restoring file permissions to the new file: "
          ++ toString { wOk with setPermsOk := false }.setPermsErrCode) :=
  rewrite_C6 { wOk with setPermsOk := false } optOk ⟨["home"]⟩ "notes.txt" "sort" []
    rfl rfl rfl rfl rfl rfl rfl rfl rfl rfl rfl rfl

/-- Helper: whenever the run reaches the spawn stage (scratch created and
duplicated, command vector nonempty), the execution plan recorded for the
child is exactly: the constructed program and arguments, the environment
bindings of `envBindings`, stdin from the target handle unless in stdin
mode, and stdout wired to the scratch file — whatever the child then
does. -/
theorem run_plan_spec (w : World) (opt : Opt) (dp : FsPath) (fn program : String)
    (args : List String)
    (hopen : openTargetOk w = true) (hmeta : w.metadataOk = true)
    (hdir : resolveDir w opt = some dp) (hname : opt.rewrite_path.fileName = some fn)
    (hct : w.createTempOk = true) (hdup : w.dupOk = true)
    (hcmd : commandLine w opt = some (program :: args)) :
    (run w opt).plan = some
      { program := program, args := args,
        envAdded := envBindings opt
          (dp.child (".rewrite-tmp-" ++ w.scratchRand ++ "-" ++ fn)) opt.rewrite_path,
        stdinFromTarget := !opt.stdin, stdoutToScratch := true } := by
  cases hs : w.spawnOk with
  | false => simp [run, hopen, hmeta, hdir, hname, hct, hdup, hcmd, hs]
  | true =>
    rcases hcs : w.childStatus with code | sig
    · by_cases hc : code = 0
      · by_cases hn : opt.no_op = true
        · simp [run, hopen, hmeta, hdir, hname, hct, hdup, hcmd, hs, hcs, hc, hn]
        · by_cases hp : w.persistOk = true
          · by_cases hsp : w.setPermsOk = true <;>
              simp [run, hopen, hmeta, hdir, hname, hct, hdup, hcmd, hs, hcs, hc,
                hn, hp, hsp]
          · simp [run, hopen, hmeta, hdir, hname, hct, hdup, hcmd, hs, hcs, hc, hn, hp]
      · simp [run, hopen, hmeta, hdir, hname, hct, hdup, hcmd, hs, hcs, hc]
    · simp [run, hopen, hmeta, hdir, hname, hct, hdup, hcmd, hs, hcs]

/-- C7: in no-op mode the scratch file is still created and the command is
still spawned and waited on with its stdout wired to the scratch file, but
the commit is skipped for every command outcome: the target file is never
modified and the scratch file is removed. -/
theorem rewrite_C7 (w : World) (opt : Opt) (dp : FsPath) (fn program : String)
    (args : List String)
    (hopen : openTargetOk w = true) (hmeta : w.metadataOk = true)
    (hdir : resolveDir w opt = some dp) (hname : opt.rewrite_path.fileName = some fn)
    (hct : w.createTempOk = true) (hdup : w.dupOk = true)
    (hcmd : commandLine w opt = some (program :: args))
    (hspawn : w.spawnOk = true) (hnoop : opt.no_op = true) :
    Event.createdScratch ∈ (run w opt).events ∧
    Event.spawnedChild ∈ (run w opt).events ∧
    Event.waitedChild ∈ (run w opt).events ∧
    (∃ p, (run w opt).plan = some p ∧ p.stdoutToScratch = true) ∧
    Event.persistedScratch ∉ (run w opt).events ∧
    Event.deletedScratch ∈ (run w opt).events ∧
    (run w opt).fs = initFs w := by
  refine ⟨?_, ?_, ?_, ⟨_, run_plan_spec w opt dp fn program args hopen hmeta hdir
    hname hct hdup hcmd, rfl⟩, ?_, ?_, ?_⟩ <;>
  · rcases hcs : w.childStatus with code | sig
    · by_cases hc : code = 0 <;>
        simp [run, hopen, hmeta, hdir, hname, hct, hdup, hcmd, hspawn, hcs, hc, hnoop]
    · simp [run, hopen, hmeta, hdir, hname, hct, hdup, hcmd, hspawn, hcs]

theorem rewrite_C7_witness :
    Event.createdScratch ∈ (run wOk { optOk with no_op := true }).events ∧
    Event.spawnedChild ∈ (run wOk { optOk with no_op := true }).events ∧
    Event.waitedChild ∈ (run wOk { optOk with no_op := true }).events ∧
    (∃ p, (run wOk { optOk with no_op := true }).plan = some p ∧
      p.stdoutToScratch = true) ∧
    Event.persistedScratch ∉ (run wOk { optOk with no_op := true }).events ∧
    Event.deletedScratch ∈ (run wOk { optOk with no_op := true }).events ∧
    (run wOk { optOk with no_op := true }).fs = initFs wOk :=
  rewrite_C7 wOk { optOk with no_op := true } ⟨["home"]⟩ "notes.txt" "sort" []
    rfl rfl rfl rfl rfl rfl rfl rfl rfl

/-- C9: whenever the run reaches the spawn stage and environment injection
is not disabled, the child's environment gains exactly three bindings —
REWRITE_TEMPFILE (the scratch file's path), REWRITE_OUTPUT (the target
path) and REWRITE_INPUT (the target path, or the sentinel "-" in stdin
mode); with `--no-env` none of them is added. -/
theorem rewrite_C9 (w : World) (opt : Opt) (dp : FsPath) (fn program : String)
    (args : List String)
    (hopen : openTargetOk w = true) (hmeta : w.metadataOk = true)
    (hdir : resolveDir w opt = some dp) (hname : opt.rewrite_path.fileName = some fn)
    (hct : w.createTempOk = true) (hdup : w.dupOk = true)
    (hcmd : commandLine w opt = some (program :: args)) :
    ∃ p, (run w opt).plan = some p ∧
      p.envAdded
        = (if opt.no_env = true then []
           else
             [("REWRITE_TEMPFILE",
                 (dp.child (".rewrite-tmp-" ++ w.scratchRand ++ "-" ++ fn)).render),
              ("REWRITE_OUTPUT", opt.rewrite_path.render),
              ("REWRITE_INPUT",
                 if opt.stdin = true then "-" else opt.rewrite_path.render)]) ∧
      p.envAdded.length = (if opt.no_env = true then 0 else 3) := by
  refine ⟨_, run_plan_spec w opt dp fn program args hopen hmeta hdir hname hct
    hdup hcmd, ?_, ?_⟩ <;>
    by_cases he : opt.no_env = true <;> simp [envBindings, he]

theorem rewrite_C9_witness :
    ∃ p, (run wOk optOk).plan = some p ∧
      p.envAdded
        = (if optOk.no_env = true then []
           else
             [("REWRITE_TEMPFILE",
                 ((FsPath.mk ["home"]).child
                   (".rewrite-tmp-" ++ wOk.scratchRand ++ "-" ++ "notes.txt")).render),
              ("REWRITE_OUTPUT", optOk.rewrite_path.render),
              ("REWRITE_INPUT",
                 if optOk.stdin = true then "-" else optOk.rewrite_path.render)]) ∧
      p.envAdded.length = (if optOk.no_env = true then 0 else 3) :=
  rewrite_C9 wOk optOk ⟨["home"]⟩ "notes.txt" "sort" [] rfl rfl rfl rfl rfl rfl rfl

/-- Helper: structural facts about every possible run trace — no scratch
file remains on disk at exit, `capturedPerms` precedes `createdScratch`
and `spawnedChild` whenever those occur, and a trace that creates a
scratch file either commits it (and never deletes it) or deletes it (and
never commits it). Proved by exhausting every branch of `run`. -/
theorem run_trace_shape (w : World) (opt : Opt) :
    (run w opt).fs.scratch = none ∧
    (Event.createdScratch ∈ (run w opt).events →
      (run w opt).events.take 3
        = [Event.openedTarget, Event.capturedPerms, Event.createdScratch]) ∧
    (Event.spawnedChild ∈ (run w opt).events →
      (run w opt).events.take 5
        = [Event.openedTarget, Event.capturedPerms, Event.createdScratch,
           Event.dupedHandle, Event.spawnedChild]) ∧
    (Event.createdScratch ∈ (run w opt).events →
      (Event.persistedScratch ∈ (run w opt).events ∧
        Event.deletedScratch ∉ (run w opt).events) ∨
      (Event.deletedScratch ∈ (run w opt).events ∧
        Event.persistedScratch ∉ (run w opt).events)) := by
  by_cases h1 : openTargetOk w = true
  · by_cases h2 : w.metadataOk = true
    · rcases h3 : resolveDir w opt with _ | dp
      · simp [run, initFs, h1, h2, h3]
      · rcases h4 : opt.rewrite_path.fileName with _ | fn
        · simp [run, initFs, h1, h2, h3, h4]
        · by_cases h5 : w.createTempOk = true
          · by_cases h6 : w.dupOk = true
            · rcases h7 : commandLine w opt with _ | cl
              · simp [run, initFs, h1, h2, h3, h4, h5, h6, h7]
              · rcases cl with _ | ⟨prog, rest⟩
                · simp [run, initFs, h1, h2, h3, h4, h5, h6, h7]
                · by_cases h8 : w.spawnOk = true
                  · rcases h9 : w.childStatus with code | sig
                    · by_cases h10 : code = 0
                      · by_cases h11 : opt.no_op = true
                        · simp [run, initFs, h1, h2, h3, h4, h5, h6, h7, h8,
                            h9, h10, h11]
                        · by_cases h12 : w.persistOk = true
                          · by_cases h13 : w.setPermsOk = true
                            · simp [run, initFs, h1, h2, h3, h4, h5, h6, h7,
                                h8, h9, h10, h11, h12, h13]
                            · simp [run, initFs, h1, h2, h3, h4, h5, h6, h7,
                                h8, h9, h10, h11, h12, h13]
                          · simp [run, initFs, h1, h2, h3, h4, h5, h6, h7, h8,
                              h9, h10, h11, h12]
                      · simp [run, initFs, h1, h2, h3, h4, h5, h6, h7, h8,
                          h9, h10]
                    · simp [run, initFs, h1, h2, h3, h4, h5, h6, h7, h8, h9]
                  · simp [run, initFs, h1, h2, h3, h4, h5, h6, h7, h8]
            · simp [run, initFs, h1, h2, h3, h4, h5, h6]
          · simp [run, initFs, h1, h2, h3, h4, h5]
    · simp [run, initFs, h1, h2]
  · simp [run, initFs, h1]

/-- C5: the permission snapshot is taken before the scratch file is
created and before the child is spawned (in every trace containing those
events, `capturedPerms` precedes them), and a run whose permission query
fails terminates with the `GetPermissions` error and exit code 1 while no
scratch file has been created and the filesystem is untouched. -/
theorem rewrite_C5 (w : World) (opt : Opt) :
    (Event.createdScratch ∈ (run w opt).events →
      (run w opt).events.take 3
        = [Event.openedTarget, Event.capturedPerms, Event.createdScratch]) ∧
    (Event.spawnedChild ∈ (run w opt).events →
      (run w opt).events.take 5
        = [Event.openedTarget, Event.capturedPerms, Event.createdScratch,
           Event.dupedHandle, Event.spawnedChild]) ∧
    (openTargetOk w = true → w.metadataOk = false →
      (run w opt).result = .err (.GetPermissions w.metadataErrCode) ∧
      Event.createdScratch ∉ (run w opt).events ∧
      (run w opt).fs = initFs w ∧
      (mainRun w opt).exitCode = 1) := by
  refine ⟨(run_trace_shape w opt).2.1, (run_trace_shape w opt).2.2.1, ?_⟩
  intro h1 h2
  simp [mainRun, run, h1, h2, initFs]

theorem rewrite_C5_witness :
    (run { wOk with metadataOk := false } optOk).result
      = .err (.GetPermissions { wOk with metadataOk := false }.metadataErrCode) ∧
    Event.createdScratch ∉ (run { wOk with metadataOk := false } optOk).events ∧
    (run { wOk with metadataOk := false } optOk).fs
      = initFs { wOk with metadataOk := false } ∧
    (mainRun { wOk with metadataOk := false } optOk).exitCode = 1 :=
  (rewrite_C5 { wOk with metadataOk := false } optOk).2.2 rfl rfl

/-- C8: on every run whatsoever, no scratch file remains on disk at exit,
and every trace that creates a scratch file either commits it by the
rename (and then never deletes it) or deletes it (and then never
commits) — no path leaves the scratch file both undeleted and
uncommitted. -/
theorem rewrite_C8 (w : World) (opt : Opt) :
    (run w opt).fs.scratch = none ∧
    (Event.createdScratch ∈ (run w opt).events →
      (Event.persistedScratch ∈ (run w opt).events ∧
        Event.deletedScratch ∉ (run w opt).events) ∨
      (Event.deletedScratch ∈ (run w opt).events ∧
        Event.persistedScratch ∉ (run w opt).events)) :=
  ⟨(run_trace_shape w opt).1, (run_trace_shape w opt).2.2.2⟩

theorem rewrite_C8_witness :
    (run wOk optOk).fs.scratch = none ∧
    ((Event.persistedScratch ∈ (run wOk optOk).events ∧
        Event.deletedScratch ∉ (run wOk optOk).events) ∨
      (Event.deletedScratch ∈ (run wOk optOk).events ∧
        Event.persistedScratch ∉ (run wOk optOk).events)) :=
  ⟨(rewrite_C8 wOk optOk).1, (rewrite_C8 wOk optOk).2 (by decide)⟩

end Rewrite
